import Mathlib

/-!
Verification of the Windows plugin shim in `flutter_splendid_ble`
(`src/windows/flutter_splendid_ble_plugin.cpp`,
`src/windows/flutter_splendid_ble_plugin.h`,
`src/windows/flutter_splendid_ble_plugin_c_api.cpp`).

The embedding models the Flutter channel value type (`EncodableValue`),
the method-call envelope, the result taxonomy of `flutter::MethodResult`
(success / error / not-implemented), and the dispatcher
`FlutterSplendidBlePlugin::HandleMethodCall` as a pure function that
returns the (unchanged) plugin state together with the trace of effects
the call performs.  The effect trace distinguishes deliveries to the
result sink from outbound OS calls, so that statements about "exactly
one result" and "no outbound side effects" are about the trace the code
actually produces.  Registration (`RegisterWithRegistrar` and the two
exported C entry points) is modelled as a state transformer on the
registrar state it mutates.
-/

/-- The standard-codec value type carried on the channel
(`flutter::EncodableValue`).  The double variant of the C++ type is
omitted: floating point is not inspected anywhere in this plugin and no
claim depends on it. -/
inductive EncodableValue
  | null
  | boolVal (b : Bool)
  | intVal (i : Int)
  | stringVal (s : String)
  | listVal (xs : List EncodableValue)
  | mapVal (entries : List (EncodableValue × EncodableValue))

/-- A method invocation as delivered by the channel
(`flutter::MethodCall<EncodableValue>`): a method name and an optional
argument value (`arguments()` may be a null pointer). -/
structure MethodCall where
  method_name : String
  arguments : Option EncodableValue

/-- The three response shapes of `flutter::MethodResult`:
`Success`, `Error` and `NotImplemented`. -/
inductive MethodResultOutcome
  | success (value : EncodableValue)
  | error (code : String) (message : String) (details : Option EncodableValue)
  | notImplemented

/-- An observable effect of a call into the plugin: either a delivery
through the result sink (`result->Success(...)`, `result->Error(...)`,
`result->NotImplemented()`), or an outbound call to the OS (network,
filesystem, or Bluetooth API).  The dispatcher in the source performs
only result deliveries; the `outboundCall` constructor exists so that
their absence is a provable property of the trace rather than an
artifact of the model. -/
inductive Effect
  | deliverResult (r : MethodResultOutcome)
  | outboundCall (desc : String)

/-- Whether an effect is an outbound OS call. -/
def Effect.isOutbound : Effect → Bool
  | .outboundCall _ => true
  | .deliverResult _ => false

/-- The plugin class `flutter_splendid_ble::FlutterSplendidBlePlugin`.
The C++ class declares no data members, so its state is the empty
record; the constructor and destructor bodies are empty (`TODO`s). -/
structure FlutterSplendidBlePlugin

/-- `FlutterSplendidBlePlugin::HandleMethodCall`
(flutter_splendid_ble_plugin.cpp lines 81-104).  Reads the method name
from the call and dispatches through the if/else chain; each branch
invokes the result sink exactly once.  The function returns the plugin
state after the call (the body never writes any member) together with
the effect trace of the call. -/
def FlutterSplendidBlePlugin.HandleMethodCall
    (plugin : FlutterSplendidBlePlugin) (method_call : MethodCall) :
    FlutterSplendidBlePlugin × List Effect :=
  let method_name := method_call.method_name
  if method_name = "startScan" then
    (plugin, [Effect.deliverResult (.success (.stringVal "startScan called"))])
  else if method_name = "stopScan" then
    (plugin, [Effect.deliverResult (.success (.stringVal "stopScan called"))])
  else if method_name = "connect" then
    (plugin, [Effect.deliverResult (.success (.stringVal "connect called"))])
  else if method_name = "disconnect" then
    (plugin, [Effect.deliverResult (.success (.stringVal "disconnect called"))])
  else
    (plugin, [Effect.deliverResult .notImplemented])

/-- The four method names recognized by the dispatch chain, in source
order. -/
def recognizedMethodNames : List String :=
  ["startScan", "stopScan", "connect", "disconnect"]

/-- Handling a sequence of invocations, threading the plugin state from
each call into the next. -/
def handleSequence (plugin : FlutterSplendidBlePlugin) :
    List MethodCall → FlutterSplendidBlePlugin
  | [] => plugin
  | c :: cs => handleSequence (plugin.HandleMethodCall c).1 cs

/-- The codec passed when the channel is created; the source passes
`&flutter::StandardMethodCodec::GetInstance()`. -/
inductive MethodCodec
  | standardMethodCodec

/-- A method-channel binding established on the registrar's messenger:
the channel name, the codec, and the handler installed by
`SetMethodCallHandler`.  The handler captures the plugin instance (the
C++ lambda captures `plugin_pointer = plugin.get()`) and forwards the
call to `HandleMethodCall`. -/
structure ChannelBinding where
  name : String
  codec : MethodCodec
  handler : MethodCall → FlutterSplendidBlePlugin × List Effect

/-- The state of a `flutter::PluginRegistrarWindows`: the channel
bindings registered on its messenger and the plugin instances whose
ownership was transferred to it by `AddPlugin`. -/
structure PluginRegistrarWindows where
  bindings : List ChannelBinding
  plugins : List FlutterSplendidBlePlugin

/-- `FlutterSplendidBlePlugin::RegisterWithRegistrar`
(flutter_splendid_ble_plugin.cpp lines 51-71).  Creates the method
channel named "flutter_splendid_ble_plugin" with the standard method
codec, constructs one plugin instance, installs the handler lambda that
forwards to `HandleMethodCall` on that instance, and transfers
ownership of the instance to the registrar via `AddPlugin`. -/
def FlutterSplendidBlePlugin.RegisterWithRegistrar
    (registrar : PluginRegistrarWindows) : PluginRegistrarWindows :=
  let plugin : FlutterSplendidBlePlugin := {}
  let channel : ChannelBinding :=
    { name := "flutter_splendid_ble_plugin"
      codec := MethodCodec.standardMethodCodec
      handler := fun call => plugin.HandleMethodCall call }
  { registrar with
      bindings := registrar.bindings ++ [channel]
      plugins := registrar.plugins ++ [plugin] }

/-- The opaque C handle `FlutterDesktopPluginRegistrarRef` passed to the
exported entry points. -/
structure FlutterDesktopPluginRegistrarRef where
  ref : Nat

/-- The exported entry point `FlutterSplendidBlePluginRegisterWithRegistrar`
(flutter_splendid_ble_plugin.cpp lines 110-115).  `manager` models
`flutter::PluginRegistrarManager::GetInstance()->GetRegistrar<...>`,
the host-side resolution of the C handle to the Windows registrar; the
entry point resolves the handle and calls the static
`RegisterWithRegistrar` on the result. -/
def FlutterSplendidBlePluginRegisterWithRegistrar
    (manager : FlutterDesktopPluginRegistrarRef → PluginRegistrarWindows)
    (registrar : FlutterDesktopPluginRegistrarRef) : PluginRegistrarWindows :=
  FlutterSplendidBlePlugin.RegisterWithRegistrar (manager registrar)

/-- The exported entry point
`FlutterSplendidBlePluginCApiRegisterWithRegistrar`
(flutter_splendid_ble_plugin_c_api.cpp lines 7-12).  Resolves the C
handle through the plugin registrar manager and calls the static
`RegisterWithRegistrar`, exactly as the other exported entry point
does. -/
def FlutterSplendidBlePluginCApiRegisterWithRegistrar
    (manager : FlutterDesktopPluginRegistrarRef → PluginRegistrarWindows)
    (registrar : FlutterDesktopPluginRegistrarRef) : PluginRegistrarWindows :=
  FlutterSplendidBlePlugin.RegisterWithRegistrar (manager registrar)

/-- The tagged enumeration over the recognized operations plus the
fallback, as the spec's design note describes the dispatch abstractly. -/
inductive MethodTag
  | StartScan
  | StopScan
  | Connect
  | Disconnect
  | Unknown

/-- Modelled from the spec: the lookup table from method name to tag
("a mapping from method name to handler function ... implement as a
lookup table"). -/
def dispatchTable : List (String × MethodTag) :=
  [("startScan", MethodTag.StartScan),
   ("stopScan", MethodTag.StopScan),
   ("connect", MethodTag.Connect),
   ("disconnect", MethodTag.Disconnect)]

/-- Modelled from the spec: table lookup with the total fallback case
mapping every unlisted name to `Unknown`. -/
def tagOfMethodName (name : String) : MethodTag :=
  match dispatchTable.lookup name with
  | some t => t
  | none => MethodTag.Unknown

/-- Modelled from the spec: the handler selected for each tag, a closed
pattern match producing the same stub results. -/
def handlerForTag (plugin : FlutterSplendidBlePlugin) :
    MethodTag → FlutterSplendidBlePlugin × List Effect
  | MethodTag.StartScan =>
      (plugin, [Effect.deliverResult (.success (.stringVal "startScan called"))])
  | MethodTag.StopScan =>
      (plugin, [Effect.deliverResult (.success (.stringVal "stopScan called"))])
  | MethodTag.Connect =>
      (plugin, [Effect.deliverResult (.success (.stringVal "connect called"))])
  | MethodTag.Disconnect =>
      (plugin, [Effect.deliverResult (.success (.stringVal "disconnect called"))])
  | MethodTag.Unknown =>
      (plugin, [Effect.deliverResult .notImplemented])

/-- Modelled from the spec: the lookup-table formulation of the router,
to be compared with the if/else chain of the source. -/
def HandleMethodCallTable (plugin : FlutterSplendidBlePlugin)
    (method_call : MethodCall) : FlutterSplendidBlePlugin × List Effect :=
  handlerForTag plugin (tagOfMethodName method_call.method_name)

/-- C1: for every method name in the recognized set and every argument
value, `HandleMethodCall` delivers exactly one success result whose
payload is the method name followed by " called", a non-empty string
that contains the method name. -/
theorem handleMethodCall_recognized_success
    (plugin : FlutterSplendidBlePlugin) (name : String)
    (args : Option EncodableValue) (h : name ∈ recognizedMethodNames) :
    (plugin.HandleMethodCall ⟨name, args⟩).2 =
      [Effect.deliverResult (.success (.stringVal (name ++ " called")))] ∧
    name ++ " called" ≠ "" ∧
    (∃ l r, name ++ " called" = l ++ name ++ r) := by
  have hcases : name = "startScan" ∨ name = "stopScan" ∨
      name = "connect" ∨ name = "disconnect" := by
    simpa [recognizedMethodNames] using h
  refine ⟨?_, ?_, "", " called", rfl⟩
  · rcases hcases with h | h | h | h <;> subst h <;> rfl
  · rcases hcases with h | h | h | h <;> subst h <;> simp

/-- Witness for C1 at the concrete input ("startScan", null). -/
theorem handleMethodCall_recognized_success_witness :
    "startScan" ∈ recognizedMethodNames ∧
    ((FlutterSplendidBlePlugin.mk.HandleMethodCall ⟨"startScan", some .null⟩).2 =
        [Effect.deliverResult (.success (.stringVal ("startScan" ++ " called")))] ∧
      "startScan" ++ " called" ≠ "" ∧
      (∃ l r, "startScan" ++ " called" = l ++ "startScan" ++ r)) :=
  ⟨by decide,
   handleMethodCall_recognized_success FlutterSplendidBlePlugin.mk
     "startScan" (some .null) (by decide)⟩

/-- C2: for every method name outside the recognized set and every
argument value, `HandleMethodCall` delivers exactly the not-implemented
outcome; the trace contains no success delivery and (the embedding
being a total function) no fault is thrown. -/
theorem handleMethodCall_unrecognized_notImplemented
    (plugin : FlutterSplendidBlePlugin) (name : String)
    (args : Option EncodableValue) (h : name ∉ recognizedMethodNames) :
    (plugin.HandleMethodCall ⟨name, args⟩).2 =
      [Effect.deliverResult MethodResultOutcome.notImplemented] := by
  have h4 : ¬ name = "startScan" ∧ ¬ name = "stopScan" ∧
      ¬ name = "connect" ∧ ¬ name = "disconnect" := by
    simpa [recognizedMethodNames, not_or] using h
  obtain ⟨h1, h2, h3, h4⟩ := h4
  simp [FlutterSplendidBlePlugin.HandleMethodCall, h1, h2, h3, h4]

/-- Witness for C2 at the concrete input ("readCharacteristic", null). -/
theorem handleMethodCall_unrecognized_notImplemented_witness :
    "readCharacteristic" ∉ recognizedMethodNames ∧
    (FlutterSplendidBlePlugin.mk.HandleMethodCall
        ⟨"readCharacteristic", some .null⟩).2 =
      [Effect.deliverResult MethodResultOutcome.notImplemented] :=
  ⟨by decide,
   handleMethodCall_unrecognized_notImplemented FlutterSplendidBlePlugin.mk
     "readCharacteristic" (some .null) (by decide)⟩

/-- C3: the router is total — every invocation, for any method name and
any argument value, delivers through the result sink exactly one
result, on the same (synchronous) call, and the embedding is a total
function so no exception escapes. -/
theorem handleMethodCall_exactly_one_result
    (plugin : FlutterSplendidBlePlugin) (call : MethodCall) :
    ∃ r, (plugin.HandleMethodCall call).2 = [Effect.deliverResult r] := by
  unfold FlutterSplendidBlePlugin.HandleMethodCall
  dsimp only
  repeat' split
  all_goals exact ⟨_, rfl⟩

/-- C4: the result of `HandleMethodCall` depends only on the method
name — any two argument values (absent, null, or arbitrary structured
values) alongside the same name produce identical results. -/
theorem handleMethodCall_argument_independent
    (plugin : FlutterSplendidBlePlugin) (name : String)
    (args1 args2 : Option EncodableValue) :
    plugin.HandleMethodCall ⟨name, args1⟩ =
      plugin.HandleMethodCall ⟨name, args2⟩ := rfl

/-- C5: every invocation delivers either a success value or the
not-implemented marker — never the error shape — and the
not-implemented outcome arises exactly for method names outside the
recognized set. -/
theorem handleMethodCall_result_taxonomy
    (plugin : FlutterSplendidBlePlugin) (call : MethodCall) :
    ((∃ v, (plugin.HandleMethodCall call).2 =
        [Effect.deliverResult (MethodResultOutcome.success v)]) ∨
      (plugin.HandleMethodCall call).2 =
        [Effect.deliverResult MethodResultOutcome.notImplemented]) ∧
    ((plugin.HandleMethodCall call).2 =
        [Effect.deliverResult MethodResultOutcome.notImplemented] ↔
      call.method_name ∉ recognizedMethodNames) := by
  obtain ⟨name, args⟩ := call
  by_cases h1 : name = "startScan"
  · subst h1; simp [FlutterSplendidBlePlugin.HandleMethodCall, recognizedMethodNames]
  by_cases h2 : name = "stopScan"
  · subst h2; simp [FlutterSplendidBlePlugin.HandleMethodCall, recognizedMethodNames]
  by_cases h3 : name = "connect"
  · subst h3; simp [FlutterSplendidBlePlugin.HandleMethodCall, recognizedMethodNames]
  by_cases h4 : name = "disconnect"
  · subst h4; simp [FlutterSplendidBlePlugin.HandleMethodCall, recognizedMethodNames]
  · simp [FlutterSplendidBlePlugin.HandleMethodCall, recognizedMethodNames,
      h1, h2, h3, h4]

/-- C6: the router is free of side effects — a single call leaves the
plugin state unchanged and its effect trace contains no outbound OS
call (network, filesystem, or Bluetooth), and handling any sequence of
invocations returns the initial state. -/
theorem handleMethodCall_no_side_effects
    (plugin : FlutterSplendidBlePlugin) (call : MethodCall)
    (calls : List MethodCall) :
    (plugin.HandleMethodCall call).1 = plugin ∧
    ((plugin.HandleMethodCall call).2.all fun e => !e.isOutbound) = true ∧
    handleSequence plugin calls = plugin := by
  have hstate : ∀ (p : FlutterSplendidBlePlugin) (c : MethodCall),
      (p.HandleMethodCall c).1 = p := by
    intro p c
    rfl
  refine ⟨hstate plugin call, ?_, ?_⟩
  · unfold FlutterSplendidBlePlugin.HandleMethodCall
    dsimp only
    split
    any_goals rfl
    split
    any_goals rfl
    split
    any_goals rfl
    split
    all_goals rfl
  · induction calls generalizing plugin with
    | nil => rfl
    | cons c cs ih =>
        simp only [handleSequence, hstate plugin c, ih]

/-- C7: one invocation of the exported registration entry point
resolves the registrar, constructs exactly one plugin instance, binds
it as the handler of the method channel, and transfers ownership of
that single instance to the registrar: the registrar's plugin list
grows by exactly that one instance and its bindings by exactly the one
channel handled by it. -/
theorem registerWithRegistrar_single_instance
    (manager : FlutterDesktopPluginRegistrarRef → PluginRegistrarWindows)
    (ref : FlutterDesktopPluginRegistrarRef) :
    ∃ plugin : FlutterSplendidBlePlugin,
      (FlutterSplendidBlePluginRegisterWithRegistrar manager ref).plugins =
        (manager ref).plugins ++ [plugin] ∧
      (FlutterSplendidBlePluginRegisterWithRegistrar manager ref).bindings =
        (manager ref).bindings ++
          [{ name := "flutter_splendid_ble_plugin"
             codec := MethodCodec.standardMethodCodec
             handler := fun call => plugin.HandleMethodCall call }] :=
  ⟨{}, rfl, rfl⟩

/-- C8: the if/else dispatch chain of the source is extensionally equal
to the lookup-table dispatch over the tagged set
StartScan / StopScan / Connect / Disconnect / Unknown with its total
fallback: every method name selects the same handler and produces the
same result in both formulations. -/
theorem handleMethodCall_eq_table
    (plugin : FlutterSplendidBlePlugin) (call : MethodCall) :
    plugin.HandleMethodCall call = HandleMethodCallTable plugin call := by
  obtain ⟨name, args⟩ := call
  by_cases h1 : name = "startScan"
  · subst h1; rfl
  by_cases h2 : name = "stopScan"
  · subst h2; rfl
  by_cases h3 : name = "connect"
  · subst h3; rfl
  by_cases h4 : name = "disconnect"
  · subst h4; rfl
  · have hb1 : (name == "startScan") = false := by simp [h1]
    have hb2 : (name == "stopScan") = false := by simp [h2]
    have hb3 : (name == "connect") = false := by simp [h3]
    have hb4 : (name == "disconnect") = false := by simp [h4]
    simp [FlutterSplendidBlePlugin.HandleMethodCall, HandleMethodCallTable,
      tagOfMethodName, dispatchTable, List.lookup, handlerForTag,
      h1, h2, h3, h4, hb1, hb2, hb3, hb4]

/-- C9: registration creates the method channel under exactly the name
"flutter_splendid_ble_plugin" with the standard method codec, and adds
no binding under any other name. -/
theorem registerWithRegistrar_channel_name
    (registrar : PluginRegistrarWindows) :
    (FlutterSplendidBlePlugin.RegisterWithRegistrar registrar).bindings.map
        (fun b => b.name) =
      registrar.bindings.map (fun b => b.name) ++
        ["flutter_splendid_ble_plugin"] ∧
    (FlutterSplendidBlePlugin.RegisterWithRegistrar registrar).bindings.map
        (fun b => b.codec) =
      registrar.bindings.map (fun b => b.codec) ++
        [MethodCodec.standardMethodCodec] := by
  constructor <;> simp [FlutterSplendidBlePlugin.RegisterWithRegistrar]

/-- C10: the two exported C entry points are behaviorally equivalent —
given the same registrar-manager resolution and the same registrar
reference, they produce identical registrar states. -/
theorem exported_entry_points_equivalent
    (manager : FlutterDesktopPluginRegistrarRef → PluginRegistrarWindows)
    (registrar : FlutterDesktopPluginRegistrarRef) :
    FlutterSplendidBlePluginRegisterWithRegistrar manager registrar =
      FlutterSplendidBlePluginCApiRegisterWithRegistrar manager registrar := rfl
